import Mathlib

/-!
Shallow embedding of `src/datadog-setup/app.py`, a Flask HTTP service with an
in-memory list `data_store` and CRUD-style handlers.  Python dicts produced by
`jsonify` are modelled as JSON values; the system clock (`datetime.now().isoformat()`),
the generated UUID (`uuid.uuid4()`), the client address (`request.remote_addr`)
and environment lookups are passed in as explicit parameters.  Each handler is a
pure function from the store (and those parameters) to a response, and for the
mutating handlers also to the new store.
-/

namespace EcsApp

/-- A JSON value, as produced by Python's `json` decoding.  Numbers are modelled
as integers (the claims only involve integral literals; Python truthiness of a
number is `n /= 0` in either case). -/
inductive Json where
  | null : Json
  | bool (b : Bool) : Json
  | num (n : Int) : Json
  | str (s : String) : Json
  | arr (elems : List Json) : Json
  | obj (fields : List (String × Json)) : Json

/-- Python truthiness (`bool(x)`) of a decoded JSON value: `None`, `False`, `0`,
`""`, `[]` and `\x7b\x7d` are falsy, everything else truthy.  This is the test
`if not request_data:` performs in `create_data` (app.py line 89). -/
def pyTruthy : Json → Bool
  | .null => false
  | .bool b => b
  | .num n => n != 0
  | .str s => s != ""
  | .arr es => !es.isEmpty
  | .obj fs => !fs.isEmpty

/-- Field lookup in a JSON object (Python `d[k]` / `k in d`); `none` on
non-objects or missing keys.  Used to state which top-level fields a response
body carries. -/
def Json.lookupField : Json → String → Option Json
  | .obj fs, k => (fs.find? (fun p => p.1 == k)).map Prod.snd
  | _, _ => none

/-- A stored item, as built by `create_data` (app.py lines 96-101):
`\x7b'id': str(uuid.uuid4()), 'data': request_data,
'created_at': datetime.now().isoformat(), 'created_by': request.remote_addr\x7d`. -/
structure Record where
  id : String
  data : Json
  created_at : String
  created_by : String

/-- The JSON object `jsonify` serialises a stored item to. -/
def recordToJson (r : Record) : Json :=
  .obj [("id", .str r.id), ("data", r.data),
        ("created_at", .str r.created_at), ("created_by", .str r.created_by)]

/-- The body of a POST request, from the point of view of Flask's
`request.get_json()`:
* `empty`: a zero-length (or absent) body — JSON decoding fails and
  `get_json()` raises `BadRequest`;
* `malformed`: bytes that fail to parse as JSON — `get_json()` raises
  `BadRequest`;
* `json v`: a well-formed body decoding to the JSON value `v`. -/
inductive Body where
  | empty : Body
  | malformed : Body
  | json (v : Json) : Body

/-- The parts of a Flask `request` that `create_data` reads: `request.is_json`
(whether the Content-Type is application/json), the body, and
`request.remote_addr`. -/
structure Request where
  is_json : Bool
  body : Body
  remote_addr : String

/-- An HTTP response: the JSON body produced by `jsonify` plus the status code.
Headers are not modelled (no claim is about them). -/
structure HttpResponse where
  body : Json
  status : Nat

/-- `str(e)` for the `werkzeug.exceptions.BadRequest` that
`request.get_json()` raises on an undecodable body. -/
def badRequestDetail : String :=
  "400 Bad Request: The browser (or proxy) sent a request that this server could not understand."

/-- Handler `health_check` for GET /health (app.py lines 26-35). -/
def health_check (now : String) : HttpResponse :=
  ⟨.obj [("status", .str "healthy"), ("service", .str "python-api"),
         ("timestamp", .str now), ("version", .str "1.0.0")], 200⟩

/-- Handler `root` for GET / (app.py lines 37-54). -/
def root (now : String) : HttpResponse :=
  ⟨.obj [("message", .str "Python API for ECS Fargate"),
         ("service", .str "python-api"),
         ("version", .str "1.0.0"),
         ("endpoints", .obj [
            ("GET /", .str "API information"),
            ("GET /health", .str "Health check"),
            ("GET /api/data", .str "Get all data items"),
            ("POST /api/data", .str "Create new data item"),
            ("GET /api/data/<id>", .str "Get specific data item"),
            ("GET /api/status", .str "Service status")]),
         ("timestamp", .str now)], 200⟩

/-- Handler `get_data` for GET /api/data (app.py lines 56-74). -/
def get_data (data_store : List Record) (now : String) : HttpResponse :=
  ⟨.obj [("success", .bool true),
         ("data", .arr (data_store.map recordToJson)),
         ("count", .num data_store.length),
         ("timestamp", .str now)], 200⟩

/-- Handler `create_data` for POST /api/data (app.py lines 76-127).  The whole
handler body runs inside `try ... except Exception`, so the `BadRequest` that
`request.get_json()` raises on an undecodable body is caught and turned into
the 500 response of lines 123-127.  The `if not request_data:` check rejects
every falsy decoded value with 400.  Returns the response and the new store. -/
def create_data (data_store : List Record) (req : Request)
    (freshId now : String) : HttpResponse × List Record :=
  if !req.is_json then
    (⟨.obj [("success", .bool false),
            ("error", .str "Content-Type must be application/json")], 400⟩,
     data_store)
  else
    match req.body with
    | .empty =>
        (⟨.obj [("success", .bool false),
                ("error", .str "Internal server error"),
                ("details", .str badRequestDetail)], 500⟩, data_store)
    | .malformed =>
        (⟨.obj [("success", .bool false),
                ("error", .str "Internal server error"),
                ("details", .str badRequestDetail)], 500⟩, data_store)
    | .json v =>
        if !pyTruthy v then
          (⟨.obj [("success", .bool false),
                  ("error", .str "Request body cannot be empty")], 400⟩,
           data_store)
        else
          let new_item : Record := ⟨freshId, v, now, req.remote_addr⟩
          let store2 := data_store ++ [new_item]
          (⟨.obj [("success", .bool true),
                  ("message", .str "Data created successfully"),
                  ("item", recordToJson new_item),
                  ("total_items", .num store2.length)], 201⟩, store2)

/-- Handler `get_data_by_id` for GET /api/data/<item_id> (app.py lines
129-147).  `next((item for item in data_store if item['id'] == item_id), None)`
is the first match of a linear scan; a found item is a non-empty dict, hence
truthy, so `if not item:` is exactly the `none` case. -/
def get_data_by_id (data_store : List Record) (item_id now : String) :
    HttpResponse :=
  match data_store.find? (fun r => r.id == item_id) with
  | none =>
      ⟨.obj [("success", .bool false),
             ("error", .str ("Item with ID " ++ item_id ++ " not found"))], 404⟩
  | some item =>
      ⟨.obj [("success", .bool true), ("item", recordToJson item),
             ("timestamp", .str now)], 200⟩

/-- Handler `get_status` for GET /api/status (app.py lines 149-168).
`environment`, `pyVersion` and `osName` stand for
`os.environ.get('ENVIRONMENT', 'development')`, `os.sys.version` and
`os.name`. -/
def get_status (data_store : List Record)
    (environment now pyVersion osName : String) : HttpResponse :=
  ⟨.obj [("service", .str "python-api"),
         ("status", .str "running"),
         ("version", .str "1.0.0"),
         ("environment", .str environment),
         ("statistics", .obj [
            ("total_items", .num data_store.length),
            ("uptime", .str "running"),
            ("last_activity", .str now)]),
         ("system_info", .obj [
            ("python_version", .str pyVersion),
            ("platform", .str osName)])], 200⟩

/-- Handler `clear_data` for DELETE /api/data (app.py lines 170-183).
Returns the response and the new (empty) store. -/
def clear_data (data_store : List Record) (now : String) :
    HttpResponse × List Record :=
  (⟨.obj [("success", .bool true),
          ("message", .str ("Cleared " ++ toString data_store.length ++ " items")),
          ("timestamp", .str now)], 200⟩,
   [])

/-- Error handler `not_found` for unmatched routes (app.py lines 186-193). -/
def not_found (requested_path : String) : HttpResponse :=
  ⟨.obj [("success", .bool false),
         ("error", .str "Endpoint not found"),
         ("requested_path", .str requested_path)], 404⟩

/-- Error handler `internal_error` (app.py lines 195-201). -/
def internal_error : HttpResponse :=
  ⟨.obj [("success", .bool false),
         ("error", .str "Internal server error")], 500⟩

/-- A sequence of POST /api/data requests executed one after the other against
the store: each element gives the decoded payload, the client address, the
generated UUID and the timestamp of that request. -/
def postAll (data_store : List Record) :
    List (Json × String × String × String) → List Record
  | [] => data_store
  | (v, addr, fid, now) :: rest =>
      postAll (create_data data_store ⟨true, .json v, addr⟩ fid now).2 rest

/-! ### Helper lemmas -/

/-- If no record of `st` has id `fid`, the linear scan of `st ++ [item]` for
`fid` finds exactly `item` (when `item.id = fid`). -/
theorem find_append_fresh (st : List Record) (item : Record) (fid : String)
    (hfresh : ∀ r ∈ st, r.id ≠ fid) (hid : item.id = fid) :
    (st ++ [item]).find? (fun r => r.id == fid) = some item := by
  induction st with
  | nil => simp [List.find?, hid]
  | cons a tl ih =>
      have ha : a.id ≠ fid := hfresh a (by simp)
      simp only [List.cons_append, List.find?]
      rw [show (a.id == fid) = false from beq_eq_false_iff_ne.mpr ha]
      exact ih (fun r hr => hfresh r (List.mem_cons_of_mem a hr))

/-- If no record of `st` has id `item_id`, the linear scan finds nothing. -/
theorem find_none_of_fresh (st : List Record) (item_id : String)
    (hfresh : ∀ r ∈ st, r.id ≠ item_id) :
    st.find? (fun r => r.id == item_id) = none := by
  rw [List.find?_eq_none]
  intro r hr
  simp [beq_eq_false_iff_ne.mpr (hfresh r hr)]

/-- The success case of `create_data`: JSON content type and a truthy decoded
body give the 201 response and append exactly one record. -/
theorem create_data_truthy (st : List Record) (v : Json)
    (addr fid now : String) (ht : pyTruthy v = true) :
    create_data st ⟨true, .json v, addr⟩ fid now =
      (⟨.obj [("success", .bool true),
              ("message", .str "Data created successfully"),
              ("item", recordToJson ⟨fid, v, now, addr⟩),
              ("total_items", .num (st.length + 1))], 201⟩,
       st ++ [⟨fid, v, now, addr⟩]) := by
  simp [create_data, ht]

/-- `postAll` over all-truthy payloads appends one record per payload, in
order, with the supplied ids, payloads, timestamps and addresses. -/
theorem postAll_truthy (posts : List (Json × String × String × String))
    (st : List Record)
    (hok : ∀ p ∈ posts, pyTruthy p.1 = true) :
    postAll st posts =
      st ++ posts.map (fun p => ⟨p.2.2.1, p.1, p.2.2.2, p.2.1⟩) := by
  induction posts generalizing st with
  | nil => simp [postAll]
  | cons p rest ih =>
      obtain ⟨v, addr, fid, now⟩ := p
      have hv : pyTruthy v = true := hok (v, addr, fid, now) (by simp)
      simp only [postAll, create_data_truthy _ _ _ _ _ hv]
      rw [ih _ (fun q hq => hok q (List.mem_cons_of_mem _ hq))]
      simp

/-- The `count` field of a GET /api/data response is the store's length. -/
theorem get_data_count_field (st : List Record) (now : String) :
    (get_data st now).body.lookupField "count" = some (.num st.length) := rfl

/-- The `data` field of a GET /api/data response lists the whole store. -/
theorem get_data_data_field (st : List Record) (now : String) :
    (get_data st now).body.lookupField "data" =
      some (.arr (st.map recordToJson)) := rfl

/-- `statistics.total_items` of a GET /api/status response is the store's
length. -/
theorem get_status_total_items (st : List Record)
    (env now pv osn : String) :
    ((get_status st env now pv osn).body.lookupField "statistics").bind
      (fun s => s.lookupField "total_items") = some (.num st.length) := rfl

/-! ### Claims -/

/-- C1: for every payload accepted by POST /api/data (response 201 with a
returned id), a subsequent GET /api/data/(returned id) with no intervening
DELETE returns 200 with a record whose stored `data` field equals the posted
payload.  The freshness hypothesis on the generated UUID reflects the spec's
collision-free id assumption. -/
theorem C1_roundtrip (st : List Record) (pay : Json) (req : Request)
    (fid now now2 : String)
    (hfresh : ∀ r ∈ st, r.id ≠ fid)
    (hbody : req.body = .json pay)
    (hpost : (create_data st req fid now).1.status = 201) :
    ∃ item : Record,
      (create_data st req fid now).2.find? (fun r => r.id == fid) = some item ∧
      item.data = pay ∧
      (get_data_by_id (create_data st req fid now).2 fid now2).status = 200 ∧
      (get_data_by_id (create_data st req fid now).2 fid now2).body.lookupField
        "item" = some (recordToJson item) := by
  obtain ⟨ij, bd, addr⟩ := req
  cases hbody
  cases ij with
  | false => simp [create_data] at hpost
  | true =>
      by_cases hpay : pyTruthy pay = true
      · rw [create_data_truthy st pay addr fid now hpay]
        have hfind := find_append_fresh st ⟨fid, pay, now, addr⟩ fid hfresh rfl
        exact ⟨⟨fid, pay, now, addr⟩, hfind, rfl,
               by simp [get_data_by_id, hfind],
               by simp [get_data_by_id, hfind]; rfl⟩
      · rw [Bool.not_eq_true] at hpay
        simp [create_data, hpay] at hpost

/-- Closed instantiation of `C1_roundtrip`: posting the payload of §8's example
to the empty store and reading the id back. -/
theorem C1_roundtrip_witness :
    (∀ r ∈ ([] : List Record), r.id ≠ "id-1") ∧
    (Request.mk true (.json (.obj [("name", .str "widget")]))
      "10.0.0.1").body = .json (.obj [("name", .str "widget")]) ∧
    (create_data [] ⟨true, .json (.obj [("name", .str "widget")]), "10.0.0.1"⟩
      "id-1" "t1").1.status = 201 ∧
    (∃ item : Record,
      (create_data [] ⟨true, .json (.obj [("name", .str "widget")]), "10.0.0.1"⟩
        "id-1" "t1").2.find? (fun r => r.id == "id-1") = some item ∧
      item.data = .obj [("name", .str "widget")] ∧
      (get_data_by_id
        (create_data [] ⟨true, .json (.obj [("name", .str "widget")]), "10.0.0.1"⟩
          "id-1" "t1").2 "id-1" "t2").status = 200 ∧
      (get_data_by_id
        (create_data [] ⟨true, .json (.obj [("name", .str "widget")]), "10.0.0.1"⟩
          "id-1" "t1").2 "id-1" "t2").body.lookupField "item" =
        some (recordToJson ⟨"id-1", .obj [("name", .str "widget")], "t1",
          "10.0.0.1"⟩)) := by
  refine ⟨by simp, rfl, rfl, ?_⟩
  obtain ⟨item, h1, h2, h3, h4⟩ :=
    C1_roundtrip [] (.obj [("name", .str "widget")])
      ⟨true, .json (.obj [("name", .str "widget")]), "10.0.0.1"⟩
      "id-1" "t1" "t2" (by simp) rfl rfl
  have hitem : item = ⟨"id-1", .obj [("name", .str "widget")], "t1", "10.0.0.1"⟩ := by
    have : (create_data []
        ⟨true, .json (.obj [("name", .str "widget")]), "10.0.0.1"⟩
        "id-1" "t1").2.find? (fun r => r.id == "id-1") =
        some ⟨"id-1", .obj [("name", .str "widget")], "t1", "10.0.0.1"⟩ := rfl
    rw [this] at h1
    exact (Option.some_inj.mp h1).symm
  exact ⟨item, h1, h2, h3, by rw [h4, hitem]⟩

/-- C2 counterexample: the claim says the empty JSON object `\x7b\x7d` is
accepted with 201, but `if not request_data:` is true for the (falsy) empty
dict, so the handler returns 400 "Request body cannot be empty". -/
theorem C2_counterexample :
    (create_data [] ⟨true, .json (.obj []), "10.0.0.1"⟩ "id-2" "t1").1.status
      = 400 ∧
    (create_data [] ⟨true, .json (.obj []), "10.0.0.1"⟩ "id-2" "t1").1.status
      ≠ 201 ∧
    (create_data [] ⟨true, .json (.obj []), "10.0.0.1"⟩ "id-2" "t1").1.body.lookupField
      "error" = some (.str "Request body cannot be empty") :=
  ⟨rfl, by decide, rfl⟩

/-- C2 amended: POST /api/data with Content-Type application/json and a
well-formed JSON body `v` returns 201 exactly when `v` is truthy in Python's
sense; every falsy JSON value (null, false, 0, "", [], \x7b\x7d) is rejected
with 400 as an empty body. -/
theorem C2_amended (st : List Record) (v : Json) (addr fid now : String) :
    (create_data st ⟨true, .json v, addr⟩ fid now).1.status =
      if pyTruthy v then 201 else 400 := by
  cases h : pyTruthy v <;> simp [create_data, h]

/-- C3 counterexample: a POST body that is malformed JSON (with Content-Type
application/json) makes `request.get_json()` raise `BadRequest`, which the
handler's `except Exception` turns into a 500 — not the 400 the claim
requires. -/
theorem C3_counterexample :
    (create_data [] ⟨true, .malformed, "10.0.0.2"⟩ "id-3" "t1").1.status
      = 500 ∧
    (create_data [] ⟨true, .malformed, "10.0.0.2"⟩ "id-3" "t1").1.status
      ≠ 400 :=
  ⟨rfl, by decide⟩

/-- C3 amended: a POST whose body fails to decode as JSON (malformed, or
missing/empty) gets 500 when the Content-Type is application/json (the
`BadRequest` raised by `get_json()` is caught by `except Exception`) and 400
otherwise; in both cases the response is the structured
(success: false, error: ...) envelope. -/
theorem C3_amended (st : List Record) (req : Request) (fid now : String)
    (hbad : req.body = Body.empty ∨ req.body = Body.malformed) :
    (create_data st req fid now).1.status =
      (if req.is_json then 500 else 400) ∧
    (create_data st req fid now).1.body.lookupField "success" =
      some (.bool false) ∧
    (create_data st req fid now).1.body.lookupField "error" =
      some (.str (if req.is_json then "Internal server error"
                  else "Content-Type must be application/json")) := by
  obtain ⟨ij, bd, addr⟩ := req
  cases ij with
  | false => exact ⟨rfl, rfl, rfl⟩
  | true =>
      rcases hbad with h | h <;> cases h <;> exact ⟨rfl, rfl, rfl⟩

/-- Closed instantiation of `C3_amended` at an empty body with JSON
Content-Type. -/
theorem C3_amended_witness :
    ((Request.mk true Body.empty "10.0.0.2").body = Body.empty ∨
      (Request.mk true Body.empty "10.0.0.2").body = Body.malformed) ∧
    ((create_data [] ⟨true, .empty, "10.0.0.2"⟩ "id-3w" "t1").1.status =
      (if (Request.mk true Body.empty "10.0.0.2").is_json then 500 else 400) ∧
     (create_data [] ⟨true, .empty, "10.0.0.2"⟩ "id-3w" "t1").1.body.lookupField
       "success" = some (.bool false) ∧
     (create_data [] ⟨true, .empty, "10.0.0.2"⟩ "id-3w" "t1").1.body.lookupField
       "error" = some (.str (if (Request.mk true Body.empty "10.0.0.2").is_json
                             then "Internal server error"
                             else "Content-Type must be application/json"))) :=
  ⟨Or.inl rfl, C3_amended [] ⟨true, .empty, "10.0.0.2"⟩ "id-3w" "t1" (Or.inl rfl)⟩

/-- C4 counterexample: the 201 response of POST /api/data (fields `success`,
`message`, `item`, `total_items`) and the /api/status response carry no
top-level `timestamp` field at all, contradicting the claim that every
response carries one. -/
theorem C4_counterexample :
    (create_data [] ⟨true, .json (.bool true), "10.0.0.3"⟩ "id-4" "t1").1.status
      = 201 ∧
    (create_data [] ⟨true, .json (.bool true), "10.0.0.3"⟩ "id-4"
      "t1").1.body.lookupField "timestamp" = none ∧
    (get_status [] "development" "t1" "3.9" "posix").body.lookupField
      "timestamp" = none :=
  ⟨rfl, rfl, rfl⟩

/-- C4 amended: a top-level ISO timestamp (the clock read at response
construction) is present in the responses of GET /, GET /health,
GET /api/data, DELETE /api/data, and the 200 branch of GET /api/data/(id);
it is absent from every POST /api/data response (success or error), from the
404 branch of GET /api/data/(id), from GET /api/status (whose clock appears
only nested as `statistics.last_activity`), and from the 404/500 error
handlers. -/
theorem C4_amended (st : List Record) (req : Request)
    (now env pv osn path fid item_id : String) :
    (health_check now).body.lookupField "timestamp" = some (.str now) ∧
    (root now).body.lookupField "timestamp" = some (.str now) ∧
    (get_data st now).body.lookupField "timestamp" = some (.str now) ∧
    (clear_data st now).1.body.lookupField "timestamp" = some (.str now) ∧
    (get_data_by_id st item_id now).body.lookupField "timestamp" =
      (st.find? (fun r => r.id == item_id)).map (fun _ => Json.str now) ∧
    (create_data st req fid now).1.body.lookupField "timestamp" = none ∧
    (get_status st env now pv osn).body.lookupField "timestamp" = none ∧
    ((get_status st env now pv osn).body.lookupField "statistics").bind
      (fun s => s.lookupField "last_activity") = some (.str now) ∧
    (not_found path).body.lookupField "timestamp" = none ∧
    internal_error.body.lookupField "timestamp" = none := by
  refine ⟨rfl, rfl, rfl, rfl, ?_, ?_, rfl, rfl, rfl, rfl⟩
  · cases h : st.find? (fun r => r.id == item_id) <;>
      simp [get_data_by_id, h, Json.lookupField, recordToJson]
  · obtain ⟨ij, bd, addr⟩ := req
    cases ij with
    | false => rfl
    | true =>
        cases bd with
        | empty => rfl
        | malformed => rfl
        | json v => cases hv : pyTruthy v <;> simp [create_data, hv] <;> rfl

/-- C5 counterexample: the claim says every empty-bodied POST gets 400, but an
empty body with Content-Type application/json makes `request.get_json()`
raise, and the `except Exception` turns that into a 500 (the store is still
unchanged). -/
theorem C5_counterexample :
    (create_data [] ⟨true, .empty, "10.0.0.4"⟩ "id-5" "t1").1.status = 500 ∧
    (create_data [] ⟨true, .empty, "10.0.0.4"⟩ "id-5" "t1").1.status ≠ 400 ∧
    (create_data [] ⟨true, .empty, "10.0.0.4"⟩ "id-5" "t1").2 = [] :=
  ⟨rfl, by decide, rfl⟩

/-- C5 amended: a POST with Content-Type other than application/json returns
400; a POST with an empty body and JSON Content-Type returns 500; in either
case the store is returned unchanged — same records, same order. -/
theorem C5_amended (st : List Record) (req : Request) (fid now : String)
    (h : req.is_json = false ∨ req.body = Body.empty) :
    (create_data st req fid now).1.status =
      (if req.is_json then 500 else 400) ∧
    (create_data st req fid now).2 = st := by
  obtain ⟨ij, bd, addr⟩ := req
  cases ij with
  | false => exact ⟨rfl, rfl⟩
  | true =>
      rcases h with h | h
      · exact absurd h (by simp)
      · cases h
        exact ⟨rfl, rfl⟩

/-- Closed instantiation of `C5_amended` at a non-JSON Content-Type. -/
theorem C5_amended_witness :
    ((Request.mk false (.json .null) "10.0.0.4").is_json = false ∨
      (Request.mk false (.json .null) "10.0.0.4").body = Body.empty) ∧
    ((create_data [] ⟨false, .json .null, "10.0.0.4"⟩ "id-5w" "t1").1.status =
      (if (Request.mk false (.json .null) "10.0.0.4").is_json then 500
       else 400) ∧
     (create_data [] ⟨false, .json .null, "10.0.0.4"⟩ "id-5w" "t1").2 = []) :=
  ⟨Or.inl rfl,
   C5_amended [] ⟨false, .json .null, "10.0.0.4"⟩ "id-5w" "t1" (Or.inl rfl)⟩

/-- C6: starting from the empty store, after N successful sequential POSTs
(JSON Content-Type, truthy decoded body — exactly the successful case), GET
/api/data returns 200 with exactly the N posted payloads in posting order, its
`count` field is N, and GET /api/status reports `statistics.total_items = N`. -/
theorem C6_sequence (posts : List (Json × String × String × String))
    (now env pv osn : String)
    (hok : ∀ p ∈ posts, pyTruthy p.1 = true) :
    (postAll [] posts).map Record.data = posts.map (fun p => p.1) ∧
    (get_data (postAll [] posts) now).status = 200 ∧
    (get_data (postAll [] posts) now).body.lookupField "count" =
      some (.num posts.length) ∧
    (get_data (postAll [] posts) now).body.lookupField "data" =
      some (.arr ((postAll [] posts).map recordToJson)) ∧
    ((get_status (postAll [] posts) env now pv osn).body.lookupField
      "statistics").bind (fun s => s.lookupField "total_items") =
      some (.num posts.length) := by
  have hst := postAll_truthy posts [] hok
  refine ⟨?_, rfl, ?_, rfl, ?_⟩
  · rw [hst]
    simp [List.map_map, Function.comp]
  · rw [get_data_count_field, hst]
    simp
  · rw [get_status_total_items, hst]
    simp

/-- Closed instantiation of `C6_sequence` at a two-element posting sequence. -/
theorem C6_sequence_witness :
    (∀ p ∈ [((Json.str "a"), "10.0.0.5", "id-6a", "t6a"),
            ((Json.num 7), "10.0.0.6", "id-6b", "t6b")],
        pyTruthy p.1 = true) ∧
    ((postAll [] [((Json.str "a"), "10.0.0.5", "id-6a", "t6a"),
                  ((Json.num 7), "10.0.0.6", "id-6b", "t6b")]).map Record.data =
        [Json.str "a", Json.num 7] ∧
     (get_data (postAll [] [((Json.str "a"), "10.0.0.5", "id-6a", "t6a"),
                  ((Json.num 7), "10.0.0.6", "id-6b", "t6b")]) "t").status = 200 ∧
     (get_data (postAll [] [((Json.str "a"), "10.0.0.5", "id-6a", "t6a"),
                  ((Json.num 7), "10.0.0.6", "id-6b", "t6b")]) "t").body.lookupField
        "count" = some (.num 2) ∧
     (get_data (postAll [] [((Json.str "a"), "10.0.0.5", "id-6a", "t6a"),
                  ((Json.num 7), "10.0.0.6", "id-6b", "t6b")]) "t").body.lookupField
        "data" = some (.arr ((postAll [] [((Json.str "a"), "10.0.0.5", "id-6a", "t6a"),
                  ((Json.num 7), "10.0.0.6", "id-6b", "t6b")]).map recordToJson)) ∧
     ((get_status (postAll [] [((Json.str "a"), "10.0.0.5", "id-6a", "t6a"),
                  ((Json.num 7), "10.0.0.6", "id-6b", "t6b")]) "e" "t" "pv"
        "posix").body.lookupField "statistics").bind
        (fun s => s.lookupField "total_items") = some (.num 2)) := by
  have hok : ∀ p ∈ [((Json.str "a"), "10.0.0.5", "id-6a", "t6a"),
            ((Json.num 7), "10.0.0.6", "id-6b", "t6b")], pyTruthy p.1 = true := by
    intro p hp
    rcases List.mem_cons.mp hp with h | h
    · rw [h]; rfl
    · rw [List.mem_singleton.mp h]; rfl
  exact ⟨hok, C6_sequence _ "t" "e" "pv" "posix" hok⟩

/-- C7: for every prior store state, DELETE /api/data returns 200 with
success true and a message reporting the number of items cleared, and an
immediately following GET /api/data sees count 0 and an empty data array. -/
theorem C7_delete_then_get (st : List Record) (now now2 : String) :
    (clear_data st now).1.status = 200 ∧
    (clear_data st now).1.body.lookupField "success" = some (.bool true) ∧
    (clear_data st now).1.body.lookupField "message" =
      some (.str ("Cleared " ++ toString st.length ++ " items")) ∧
    (get_data (clear_data st now).2 now2).body.lookupField "count" =
      some (.num 0) ∧
    (get_data (clear_data st now).2 now2).body.lookupField "data" =
      some (.arr []) :=
  ⟨rfl, rfl, rfl, rfl, rfl⟩

/-- C8: GET /api/data/(id) for an id matching no stored record returns 404
with success false and an error message that contains the offending id. -/
theorem C8_not_found (st : List Record) (item_id now : String)
    (hfresh : ∀ r ∈ st, r.id ≠ item_id) :
    (get_data_by_id st item_id now).status = 404 ∧
    (get_data_by_id st item_id now).body.lookupField "success" =
      some (.bool false) ∧
    (get_data_by_id st item_id now).body.lookupField "error" =
      some (.str ("Item with ID " ++ item_id ++ " not found")) ∧
    ∃ pre suf : String,
      "Item with ID " ++ item_id ++ " not found" = pre ++ item_id ++ suf := by
  have h := find_none_of_fresh st item_id hfresh
  refine ⟨?_, ?_, ?_, "Item with ID ", " not found", rfl⟩ <;>
    simp [get_data_by_id, h, Json.lookupField]

/-- Closed instantiation of `C8_not_found`: a one-record store probed with a
different id. -/
theorem C8_not_found_witness :
    (∀ r ∈ [(⟨"id-8", .null, "t0", "c0"⟩ : Record)], r.id ≠ "missing") ∧
    ((get_data_by_id [(⟨"id-8", .null, "t0", "c0"⟩ : Record)] "missing"
        "t1").status = 404 ∧
     (get_data_by_id [(⟨"id-8", .null, "t0", "c0"⟩ : Record)] "missing"
        "t1").body.lookupField "success" = some (.bool false) ∧
     (get_data_by_id [(⟨"id-8", .null, "t0", "c0"⟩ : Record)] "missing"
        "t1").body.lookupField "error" =
        some (.str ("Item with ID " ++ "missing" ++ " not found")) ∧
     ∃ pre suf : String,
       "Item with ID " ++ "missing" ++ " not found" = pre ++ "missing" ++ suf) := by
  have hfresh : ∀ r ∈ [(⟨"id-8", .null, "t0", "c0"⟩ : Record)],
      r.id ≠ "missing" := by
    intro r hr
    rw [List.mem_singleton.mp hr]
    decide
  exact ⟨hfresh, C8_not_found _ "missing" "t1" hfresh⟩

/-- C10: in every GET /api/data response `count` equals the length of the
`data` array, and in every successful POST /api/data response `total_items`
equals the store's length right after the append (hence at least 1), the
returned `item` is the appended record, and that record is the last element
of the new store. -/
theorem C10_consistency (st : List Record) (v : Json)
    (addr fid now now2 : String) (ht : pyTruthy v = true) :
    (get_data st now2).body.lookupField "count" =
      some (.num (st.map recordToJson).length) ∧
    (get_data st now2).body.lookupField "data" =
      some (.arr (st.map recordToJson)) ∧
    (create_data st ⟨true, .json v, addr⟩ fid now).1.status = 201 ∧
    (create_data st ⟨true, .json v, addr⟩ fid now).1.body.lookupField
      "total_items" =
      some (.num (create_data st ⟨true, .json v, addr⟩ fid now).2.length) ∧
    1 ≤ (create_data st ⟨true, .json v, addr⟩ fid now).2.length ∧
    (create_data st ⟨true, .json v, addr⟩ fid now).2.getLast? =
      some ⟨fid, v, now, addr⟩ ∧
    (create_data st ⟨true, .json v, addr⟩ fid now).1.body.lookupField "item" =
      some (recordToJson ⟨fid, v, now, addr⟩) := by
  rw [create_data_truthy st v addr fid now ht]
  refine ⟨?_, rfl, rfl, ?_, ?_, ?_, rfl⟩
  · rw [get_data_count_field]
    simp
  · have : (⟨.obj [("success", .bool true),
        ("message", .str "Data created successfully"),
        ("item", recordToJson ⟨fid, v, now, addr⟩),
        ("total_items", .num (st.length + 1))], 201⟩ :
          HttpResponse).body.lookupField "total_items" =
        some (.num (st.length + 1)) := rfl
    rw [this]
    simp
  · simp
  · simp

/-- Closed instantiation of `C10_consistency` at a singleton store and the
payload 5. -/
theorem C10_consistency_witness :
    pyTruthy (Json.num 5) = true ∧
    ((get_data [(⟨"id-0", .null, "t0", "c0"⟩ : Record)] "t2").body.lookupField
        "count" = some (.num ([(⟨"id-0", .null, "t0", "c0"⟩ : Record)].map
          recordToJson).length) ∧
     (get_data [(⟨"id-0", .null, "t0", "c0"⟩ : Record)] "t2").body.lookupField
        "data" = some (.arr ([(⟨"id-0", .null, "t0", "c0"⟩ : Record)].map
          recordToJson)) ∧
     (create_data [(⟨"id-0", .null, "t0", "c0"⟩ : Record)]
        ⟨true, .json (.num 5), "10.0.0.7"⟩ "id-10" "t1").1.status = 201 ∧
     (create_data [(⟨"id-0", .null, "t0", "c0"⟩ : Record)]
        ⟨true, .json (.num 5), "10.0.0.7"⟩ "id-10" "t1").1.body.lookupField
        "total_items" = some (.num (create_data
          [(⟨"id-0", .null, "t0", "c0"⟩ : Record)]
          ⟨true, .json (.num 5), "10.0.0.7"⟩ "id-10" "t1").2.length) ∧
     1 ≤ (create_data [(⟨"id-0", .null, "t0", "c0"⟩ : Record)]
        ⟨true, .json (.num 5), "10.0.0.7"⟩ "id-10" "t1").2.length ∧
     (create_data [(⟨"id-0", .null, "t0", "c0"⟩ : Record)]
        ⟨true, .json (.num 5), "10.0.0.7"⟩ "id-10" "t1").2.getLast? =
        some ⟨"id-10", .num 5, "t1", "10.0.0.7"⟩ ∧
     (create_data [(⟨"id-0", .null, "t0", "c0"⟩ : Record)]
        ⟨true, .json (.num 5), "10.0.0.7"⟩ "id-10" "t1").1.body.lookupField
        "item" = some (recordToJson ⟨"id-10", .num 5, "t1", "10.0.0.7"⟩)) :=
  ⟨rfl, C10_consistency [(⟨"id-0", .null, "t0", "c0"⟩ : Record)] (.num 5)
    "10.0.0.7" "id-10" "t1" "t2" rfl⟩

end EcsApp
